import Mathlib

/-!
Shallow embedding of the power-allocation simulation repository
(src/data_loader.py, src/allocation_engine.py, src/data/data_loader.py).

Spreadsheet cells are dynamically typed in the source (blank / numeric /
string); they are modelled by the inductive `Cell`.  Numeric cells model the
float64 values pandas produces for numeric spreadsheet columns; they are
represented as exact rationals, and Python's decimal rendering `str(float)`
is modelled for every rational whose denominator divides a power of ten
(every binary float is of this shape).  Python string coercions are modelled
over explicit character lists so that every definition evaluates by kernel
reduction.
-/

namespace PowerAlloc

/-- A spreadsheet cell as pandas hands it to the Python code: missing (NaN),
a numeric value, or a string.  Numeric cells carry the exact rational value
of the float. -/
inductive Cell where
  | blank : Cell
  | num : ℚ → Cell
  | str : String → Cell
deriving DecidableEq, Repr

/-- The six ASCII whitespace characters stripped by Python's `str.strip()`. -/
def isPySpace (c : Char) : Bool :=
  c == ' ' || c == '\t' || c == '\n' || c == '\r' || c == '\x0b' || c == '\x0c'

/-- Strip whitespace from both ends of a character list (Python `str.strip()`). -/
def stripChars (l : List Char) : List Char :=
  ((l.dropWhile isPySpace).reverse.dropWhile isPySpace).reverse

/-- Python `str.strip()`. -/
def pyStrip (s : String) : String := ⟨stripChars s.data⟩

/-- Python `str.isdigit()` for ASCII digits: nonempty and all digits. -/
def pyIsdigit (s : String) : Bool :=
  !s.data.isEmpty && s.data.all Char.isDigit

/-- Python `str.replace('.', '')`: drop every dot. -/
def removeDots (s : String) : String := ⟨s.data.filter (fun c => c != '.')⟩

/-- The decimal digits of a natural number (Python `str(n)` for `n ≥ 0`). -/
def natChars (n : ℕ) : List Char := (Nat.repr n).data

/-- Python `str` of an integer: a minus sign followed by digits when negative. -/
def intChars (z : ℤ) : List Char :=
  if z < 0 then '-' :: natChars z.natAbs else natChars z.natAbs

/-- Numeric value of a list of decimal digits. -/
def digitsVal (ds : List Char) : ℕ :=
  ds.foldl (fun a c => a * 10 + (c.toNat - 48)) 0

/-- Left-pad a digit list with zeros to length `k`. -/
def padZeros (cs : List Char) (k : ℕ) : List Char :=
  List.replicate (k - cs.length) '0' ++ cs

/-- Smallest `k ≤ 60` with `den ∣ 10 ^ k`, if any.  For the denominator of a
binary float such a `k` always exists. -/
def decExponent (den : ℕ) : Option ℕ :=
  (List.range 61).find? (fun k => 10 ^ k % den == 0)

/-- The character list of Python's `str()` applied to a float with exact
value `q`: `"5.0"` for integral values, otherwise the shortest decimal form
(`"1.5"`, `"1.05"`, ...).  Exponent notation for very large/small magnitudes
is not modelled; rationals that are not decimal-representable (never the
value of a float) fall to an inert `num/den` rendering. -/
def pyStrNumL (q : ℚ) : List Char :=
  match decExponent q.den with
  | some 0 => intChars q.num ++ ['.', '0']
  | some k =>
      let n : ℕ := q.num.natAbs * (10 ^ k / q.den)
      (if q.num < 0 then ['-'] else []) ++
        natChars (n / 10 ^ k) ++ ['.'] ++ padZeros (natChars (n % 10 ^ k)) k
  | none => intChars q.num ++ ['/'] ++ natChars q.den

/-- Python `str()` of a float value. -/
def pyStrNum (q : ℚ) : String := ⟨pyStrNumL q⟩

/-- Python `str()` of a cell: `"nan"` for a missing value, the decimal float
rendering for numbers, the string itself otherwise. -/
def pyStr (c : Cell) : String :=
  match c with
  | Cell.blank => "nan"
  | Cell.num q => pyStrNum q
  | Cell.str s => s

/-- Python `int()` truncation (toward zero) of a float value. -/
def pyTrunc (q : ℚ) : ℤ :=
  if q.num < 0 then -((q.num.natAbs / q.den : ℕ) : ℤ) else ((q.num.natAbs / q.den : ℕ) : ℤ)

/-- A parsed float as an exact decimal fixed-point value `m / 10 ^ e`
(mantissa and exponent), so that later integer truncation stays inside
kernel-computable integer arithmetic. -/
abbrev FixDec := ℤ × ℕ

/-- Rational value of a parsed decimal. -/
def fixVal (p : FixDec) : ℚ := (p.1 : ℚ) / (10 ^ p.2 : ℚ)

/-- Python `int()` truncation of a parsed decimal. -/
def truncFix (p : FixDec) : ℤ :=
  if p.1 < 0 then -((p.1.natAbs / 10 ^ p.2 : ℕ) : ℤ) else ((p.1.natAbs / 10 ^ p.2 : ℕ) : ℤ)

/-- Exponent suffix of Python `float()` syntax: `[+-]?digits`, end of input. -/
def pyFloatExpPart (m : ℤ) (e0 : ℕ) (r : List Char) : Option FixDec :=
  let signed : Bool × List Char :=
    match r with
    | '-' :: r2 => (true, r2)
    | '+' :: r2 => (false, r2)
    | r2 => (false, r2)
  let p := signed.2.span Char.isDigit
  if p.1.isEmpty || !p.2.isEmpty then none
  else
    let ex := digitsVal p.1
    if signed.1 then some (m, e0 + ex)
    else if e0 ≤ ex then some (m * (10 ^ (ex - e0) : ℕ), 0)
    else some (m, e0 - ex)

/-- After the mantissa of Python `float()` syntax: either the end of the
input or an exponent part. -/
def pyFloatTail (m : ℤ) (e0 : ℕ) : List Char → Option FixDec
  | [] => some (m, e0)
  | 'e' :: r => pyFloatExpPart m e0 r
  | 'E' :: r => pyFloatExpPart m e0 r
  | _ => none

/-- Python `float(str)`: strip whitespace, optional sign, digits with an
optional dot and an optional exponent; `none` models `ValueError`
(`inf`/`nan` literals are not modelled: no caller treats them specially). -/
def pyFloatOfString (s : String) : Option FixDec :=
  let cs := stripChars s.data
  let signed : Bool × List Char :=
    match cs with
    | '-' :: r => (true, r)
    | '+' :: r => (false, r)
    | r => (false, r)
  let ipSplit := signed.2.span Char.isDigit
  let fpSplit : List Char × List Char :=
    match ipSplit.2 with
    | '.' :: r => r.span Char.isDigit
    | _ => ([], ipSplit.2)
  let rest : List Char :=
    match ipSplit.2 with
    | '.' :: _ => fpSplit.2
    | r => r
  if ipSplit.1.isEmpty && fpSplit.1.isEmpty then none
  else
    let m0 : ℕ := digitsVal ipSplit.1 * 10 ^ fpSplit.1.length + digitsVal fpSplit.1
    let m : ℤ := if signed.1 then -(m0 : ℤ) else (m0 : ℤ)
    pyFloatTail m fpSplit.1.length rest

/-- Python `int(str)`: strip whitespace, optional sign, digits only;
`none` models `ValueError`. -/
def pyIntOfString (s : String) : Option ℤ :=
  let cs := stripChars s.data
  let signed : Bool × List Char :=
    match cs with
    | '-' :: r => (true, r)
    | '+' :: r => (false, r)
    | r => (false, r)
  let p := signed.2.span Char.isDigit
  if p.1.isEmpty || !p.2.isEmpty then none
  else some (if signed.1 then -(digitsVal p.1 : ℤ) else (digitsVal p.1 : ℤ))

/-- Python `int()` applied to a cell: truncation for numbers, strict string
parse for strings, error (`none`) for a missing value. -/
def pyIntOfCell (c : Cell) : Option ℤ :=
  match c with
  | Cell.blank => none
  | Cell.num q => some (pyTrunc q)
  | Cell.str s => pyIntOfString s

/-- Pandas element-wise `==` used when filtering dataframes: NaN compares
unequal to everything (itself included); otherwise structural equality,
with `7 == 7.0` true because numeric cells are exact rationals. -/
def pdEq (a b : Cell) : Bool :=
  match a, b with
  | Cell.blank, _ => false
  | _, Cell.blank => false
  | a, b => decide (a = b)

/-- Python `dict` assignment `m[k] = v`: overwrite in place if the key is
present (keeping first-insertion order), else append. -/
def dictUpdate (m : List (String × ℤ)) (k : String) (v : ℤ) : List (String × ℤ) :=
  if m.any (fun kv => kv.1 == k) then
    m.map (fun kv => if kv.1 == k then (k, v) else kv)
  else m ++ [(k, v)]

/-- Python `dict.get(k)` on an association list. -/
def lookupPS (m : List (String × ℤ)) (k : String) : Option ℤ :=
  (m.find? (fun kv => kv.1 == k)).map (fun kv => kv.2)

/-! ### src/data/data_loader.py (`load_data` and its helpers) -/

/-- The string members of `ACTIVE_STATES` (src/data/data_loader.py, line 4).
The set also holds the integer `1`; an integer is a member of the mixed set
exactly when it equals `1`, a string exactly when it is one of these. -/
def activeStateStrings : List String :=
  ["1", "在线", "正常", "ON", "on", "true", "True", "是", "Y"]

/-- Embeds `_is_active` (src/data/data_loader.py, lines 126-133): NaN is
inactive; a numeric value is truncated with `int()` and is active iff the
result is `1`; a string is stripped and is active iff it is one of the
listed tokens. -/
def isActiveCell (c : Cell) : Bool :=
  match c with
  | Cell.blank => false
  | Cell.num q => pyTrunc q == 1
  | Cell.str s => activeStateStrings.contains (pyStrip s)

/-- `val.replace('\r',';').replace('\n',';').replace(',', ';')` from
`_split_points` (src/data/data_loader.py, line 30). -/
def replaceSeps (l : List Char) : List Char :=
  l.map (fun c => if c == '\r' || c == '\n' || c == ',' then ';' else c)

/-- Split on `;`, strip each token, drop empty tokens
(src/data/data_loader.py, line 30). -/
def tokensOf (s : String) : List String :=
  (((replaceSeps s.data).splitOn ';').map (fun t => (⟨stripChars t⟩ : String))).filter
    (fun t => t != "")

/-- Embeds `_split_points` (src/data/data_loader.py, lines 25-30): NaN gives
no points; a numeric cell is first coerced with `str(int(val))`; the string
is then split on `;`/`,`/CR/LF into trimmed nonempty tokens. -/
def splitPoints (c : Cell) : List String :=
  match c with
  | Cell.blank => []
  | Cell.num q => tokensOf ⟨intChars (pyTrunc q)⟩
  | Cell.str s => tokensOf s

/-- Python `dict` assignment for the raw (cell-valued) point-status map kept
by `load_data`. -/
def dictUpdateC (m : List (String × Cell)) (k : String) (v : Cell) : List (String × Cell) :=
  if m.any (fun kv => kv.1 == k) then
    m.map (fun kv => if kv.1 == k then (k, v) else kv)
  else m ++ [(k, v)]

/-- Python `dict.get` / `in` on the cell-valued map. -/
def lookupC (m : List (String × Cell)) (k : String) : Option Cell :=
  (m.find? (fun kv => kv.1 == k)).map (fun kv => kv.2)

/-- Embeds the wide-layout branch of `load_data`'s template parsing
(src/data/data_loader.py, lines 117-123): EVERY column header is stripped
and becomes a key of the raw point-status map, paired with the first data
row's cell — there is no all-digit filter in this implementation. -/
def loadDataPointStatusWide (cols : List (Cell × Cell)) : List (String × Cell) :=
  cols.foldl (fun m hv => dictUpdateC m (pyStrip (pyStr hv.1)) hv.2) []

/-- Embeds the two-column branch of `load_data`'s template parsing
(src/data/data_loader.py, lines 111-116): each row's point cell is
stringified and stripped, the raw status cell is stored unchanged. -/
def loadDataPointStatusLong (rows : List (Cell × Cell)) : List (String × Cell) :=
  rows.foldl (fun m ps => dictUpdateC m (pyStrip (pyStr ps.1)) ps.2) []

/-- Numeric-cell parse used by `load_data` for the output / load columns
(src/data/data_loader.py, lines 71-74 and 100-103):
`float(cell) if not isna(cell) else 0.0`, with any parse error giving `0.0`.
Negative numeric values pass through unchanged. -/
def loaderParseNum (c : Cell) : ℚ :=
  match c with
  | Cell.blank => 0
  | Cell.num q => q
  | Cell.str s => ((pyFloatOfString s).map fixVal).getD 0

/-- Embeds `_find_col` (src/data/data_loader.py, lines 13-17): the first
candidate present among the columns. -/
def findCol (cols : List String) (cands : List String) : Option String :=
  cands.find? (fun c => cols.contains c)

/-- The fixed error message raised by `load_data` when a stations column is
unresolvable (src/data/data_loader.py, line 65).  It names the accepted
column alternatives but not the columns actually present. -/
def stationsColumnsErrorMsg : String :=
  "电站信息表.xlsx must contain columns: 电站编号/编号, 电站名称, 出力/出力(MW), 点位"

/-- Embeds the stations column resolution of `load_data`
(src/data/data_loader.py, lines 60-65): all four canonical fields must
resolve through their candidate lists or the whole load fails with the
fixed message. -/
def loadDataStationsColumns (cols : List String) :
    Except String (String × String × String × String) :=
  match findCol cols ["电站编号", "编号", "电站ID"], findCol cols ["电站名称", "名称"],
      findCol cols ["出力", "出力(MW)", "容量"], findCol cols ["点位", "点位编码"] with
  | some a, some b, some c, some d => Except.ok (a, b, c, d)
  | _, _, _, _ => Except.error stationsColumnsErrorMsg

/-- Python `dict` lookup on the point → section-ids adjacency. -/
def lookupSecs (p2s : List (String × List String)) (p : String) : Option (List String) :=
  (p2s.find? (fun kv => kv.1 == p)).map (fun kv => kv.2)

/-- The section ids reachable through an entity's points: each point that is
in `active_points` and in `point_to_sections` contributes that point's
section list (src/data/data_loader.py, lines 139-143 and 147-151). -/
def reachableSecs (pts : List String) (activePts : List String)
    (p2s : List (String × List String)) : List String :=
  (pts.filter (fun p => activePts.contains p && (lookupSecs p2s p).isSome)).flatMap
    (fun p => (lookupSecs p2s p).getD [])

/-- Lexicographic (code-point) comparison of character lists, the order
Python uses on strings. -/
def listLeB : List Char → List Char → Bool
  | [], _ => true
  | _ :: _, [] => false
  | a :: as, b :: bs => if a < b then true else if b < a then false else listLeB as bs

/-- Python's `<=` on strings (lexicographic by code point). -/
def strLeB (a b : String) : Bool := listLeB a.data b.data

/-- `strLeB` as a relation, for use with sorting. -/
def strLeProp (a b : String) : Prop := strLeB a b = true

instance strLePropDecidable : DecidableRel strLeProp :=
  fun a b => inferInstanceAs (Decidable (strLeB a b = true))

/-- Embeds the user (load) section assignment of `load_data`
(src/data/data_loader.py, lines 146-153):
`sorted(list(assigned))[0] if assigned else None`, where `assigned` is the
set of sections reachable through the user's active points.  Python's stable
sort over distinct strings is modelled by insertion sort. -/
def userSectionId (pts : List String) (activePts : List String)
    (p2s : List (String × List String)) : Option String :=
  (List.insertionSort strLeProp (reachableSecs pts activePts p2s).dedup).head?

/-! ### src/data_loader.py (class `DataLoader`) -/

/-- A schema validation failure of `DataLoader.validate_columns`
(src/data_loader.py, lines 106-110): the raised `ValueError` is built from
the file name, the canonical fields still missing, and the full list of
columns present in the dataframe. -/
structure ColumnError where
  filename : String
  missingColumns : List String
  availableColumns : List String
deriving DecidableEq, Repr

/-- The canonical fields that resolve neither directly nor through the
file's column mapping (src/data_loader.py, lines 79-104). -/
def missingOf (required : List String) (mapping : Option (List (String × String)))
    (cols : List String) : List String :=
  match mapping with
  | some m =>
      required.filter (fun req =>
        !(cols.contains req || m.any (fun am => am.2 == req && cols.contains am.1)))
  | none => required.filter (fun req => !cols.contains req)

/-- Embeds `DataLoader.validate_columns` (src/data_loader.py, lines 77-110):
succeed iff every required column resolves, otherwise raise an error naming
every missing canonical field and all columns present. -/
def validateColumns (fname : String) (required : List String)
    (mapping : Option (List (String × String))) (cols : List String) :
    Except ColumnError Unit :=
  let missing := missingOf required mapping cols
  if missing.isEmpty then Except.ok () else Except.error ⟨fname, missing, cols⟩

/-- The message text of the raised `ValueError`
(src/data_loader.py, lines 107-110), with Python's list repr. -/
def pyListRepr (l : List String) : String :=
  "[" ++ String.intercalate ", " (l.map (fun s => "\x27" ++ s ++ "\x27")) ++ "]"

/-- The formatted validation message
(src/data_loader.py, lines 107-110). -/
def columnErrorMessage (e : ColumnError) : String :=
  "File \x27" ++ e.filename ++ "\x27 is missing required columns: " ++
    pyListRepr e.missingColumns ++ ". Available columns: " ++
    pyListRepr e.availableColumns

/-- Point-id normalization of `DataLoader.load_point_status`'s two-column
branch (src/data_loader.py, lines 240-244): stringify, strip, and when the
dot-free form is all digits replace by `str(int(float(id)))`; `none` models
the `ValueError` that aborts the row when `float()` fails despite the digit
check (for example `"1.2.3"`). -/
def normalizePointId (c : Cell) : Option String :=
  let p0 := pyStrip (pyStr c)
  if pyIsdigit (removeDots p0) then
    (pyFloatOfString p0).map (fun v => (⟨intChars (truncFix v)⟩ : String))
  else some p0

/-- One row of `DataLoader.load_point_status`'s two-column branch
(src/data_loader.py, lines 238-249): rows with a missing point or status are
skipped, the point id is normalized, the status is coerced with `int()`, and
any coercion error skips the row (`none`). -/
def loadPointStatusLongRow (pid st : Cell) : Option (String × ℤ) :=
  if pid == Cell.blank || st == Cell.blank then none
  else
    match normalizePointId pid, pyIntOfCell st with
    | some p, some s => some (p, s)
    | _, _ => none

/-- The full two-column (long) layout of `DataLoader.load_point_status`
(src/data_loader.py, lines 235-250). -/
def loadPointStatusLongTable (rows : List (Cell × Cell)) : List (String × ℤ) :=
  rows.foldl
    (fun m ps =>
      match loadPointStatusLongRow ps.1 ps.2 with
      | some kv => dictUpdate m kv.1 kv.2
      | none => m)
    []

/-- The wide layout of `DataLoader.load_point_status`
(src/data_loader.py, lines 251-261): only an all-digit column header is
treated as a point id; a missing first-row value is skipped; a first-row
value that `int()` cannot coerce raises, aborting the whole table load
(the surrounding `except` re-raises), modelled by `Except.error`. -/
def loadPointStatusWideGo : List (Cell × Cell) → List (String × ℤ) →
    Except Unit (List (String × ℤ))
  | [], m => Except.ok m
  | hv :: rest, m =>
      if pyIsdigit (pyStr hv.1) then
        if hv.2 != Cell.blank then
          match pyIntOfCell hv.2 with
          | some n => loadPointStatusWideGo rest (dictUpdate m (pyStr hv.1) n)
          | none => Except.error ()
        else loadPointStatusWideGo rest m
      else loadPointStatusWideGo rest m

/-- The wide layout of `DataLoader.load_point_status`, from the column
headers paired with the first data row. -/
def loadPointStatusWideTable (cols : List (Cell × Cell)) : Except Unit (List (String × ℤ)) :=
  loadPointStatusWideGo cols []

/-! ### src/allocation_engine.py (class `AllocationEngine`) -/

/-- A row of the stations dataframe, canonical columns
电站编号 / 电站名称 / 出力 / 点位. -/
structure StationRow where
  sid : Cell
  sname : Cell
  output : Cell
  point : Cell
deriving DecidableEq, Repr

/-- A row of the loads dataframe, canonical columns
用户编号 / 用电用户 / 负荷 / 点位. -/
structure LoadRow where
  lid : Cell
  lname : Cell
  demand : Cell
  point : Cell
deriving DecidableEq, Repr

/-- A row of the section-mapping dataframe, canonical columns
断面编号 / 断面名称 / 点位. -/
structure SectionRow where
  secId : Cell
  secName : Cell
  point : Cell
deriving DecidableEq, Repr

/-- The `data` dictionary handed to `AllocationEngine.__init__`
(src/allocation_engine.py, line 14), as produced by `DataLoader`:
the three dataframes, the point-status map (point id → integer status), and
the filenames of the optional rule files that loaded. -/
structure EngineData where
  section_mapping : List SectionRow
  stations : List StationRow
  loads : List LoadRow
  point_status : List (String × ℤ)
  optional_rules : List String
deriving Repr

/-- The `status` field of an allocation record. -/
inductive AllocStatus where
  | active : AllocStatus
  | inactive : AllocStatus
  | notFound : AllocStatus
deriving DecidableEq, Repr

/-- An allocation record as returned by `get_station_allocation` /
`get_load_allocation` (src/allocation_engine.py, lines 26-98).  The
not-found record carries no name/point keys, modelled by `none`. -/
structure AllocRecord where
  status : AllocStatus
  allocation : ℚ
  reason : String
  entityName : Option Cell
  pointId : Option String
deriving DecidableEq, Repr

/-- The numeric parse of `get_station_allocation` / `get_load_allocation`
(src/allocation_engine.py, lines 42-45 and 79-82):
`float(v) if pd.notna(v) and str(v).replace('.', '').isdigit() else 0.0`,
with a `try`/`except` fallback to `0.0`.  Note the digit check rejects any
string form holding a minus sign, so negative values resolve to `0.0` here. -/
def engineParseNum (c : Cell) : ℚ :=
  match c with
  | Cell.blank => 0
  | Cell.num q => if pyIsdigit (removeDots (pyStrNum q)) then q else 0
  | Cell.str s =>
      if pyIsdigit (removeDots s) then ((pyFloatOfString s).map fixVal).getD 0 else 0

/-- `stations_df[stations_df['电站编号'].astype(str) == station_id]`
(src/allocation_engine.py, line 29). -/
def stationMatches (data : EngineData) (sid : String) : List StationRow :=
  data.stations.filter (fun r => pyStr r.sid == sid)

/-- `loads_df[loads_df['用户编号'].astype(str) == load_id]`
(src/allocation_engine.py, line 66). -/
def loadMatches (data : EngineData) (lid : String) : List LoadRow :=
  data.loads.filter (fun r => pyStr r.lid == lid)

/-- Embeds `AllocationEngine.get_station_allocation`
(src/allocation_engine.py, lines 26-61): not-found when no row's id
stringifies to `station_id`; otherwise the first matching row's point id is
looked up in the point-status map with default `0`, and the station is
active iff that status is `1`, allocating the parsed output when active and
`0` otherwise. -/
def getStationAllocation (data : EngineData) (sid : String) : AllocRecord :=
  match stationMatches data sid with
  | [] => ⟨AllocStatus.notFound, 0, "Station " ++ sid ++ " not found", none, none⟩
  | row :: _ =>
      let pointId := pyStr row.point
      if (lookupPS data.point_status pointId).getD 0 == 1 then
        ⟨AllocStatus.active, engineParseNum row.output,
          "Point " ++ pointId ++ " is active", some row.sname, some pointId⟩
      else
        ⟨AllocStatus.inactive, 0,
          "Point " ++ pointId ++ " is inactive", some row.sname, some pointId⟩

/-- Embeds `AllocationEngine.get_load_allocation`
(src/allocation_engine.py, lines 63-98), symmetric to the station case with
the 负荷 (demand) column. -/
def getLoadAllocation (data : EngineData) (lid : String) : AllocRecord :=
  match loadMatches data lid with
  | [] => ⟨AllocStatus.notFound, 0, "Load " ++ lid ++ " not found", none, none⟩
  | row :: _ =>
      let pointId := pyStr row.point
      if (lookupPS data.point_status pointId).getD 0 == 1 then
        ⟨AllocStatus.active, engineParseNum row.demand,
          "Point " ++ pointId ++ " is active", some row.lname, some pointId⟩
      else
        ⟨AllocStatus.inactive, 0,
          "Point " ++ pointId ++ " is inactive", some row.lname, some pointId⟩

/-- A section result of `calculate_section_allocation`
(src/allocation_engine.py, lines 100-143); the empty-section early return
carries no section name (`none`). -/
structure SectionResult where
  sectionName : Option Cell
  totalGeneration : ℚ
  totalLoad : ℚ
  balance : ℚ
  activePoints : List String
deriving DecidableEq, Repr

/-- Embeds `AllocationEngine.calculate_section_allocation`
(src/allocation_engine.py, lines 100-143): filter the section-mapping rows
whose 点位 cell equals the given value, then for each such row use its
断面名称 string as a point id, collect the stations and loads whose 点位
stringifies to it, and accumulate the active ones' allocations. -/
def calcSectionAllocation (data : EngineData) (sectionVal : Cell) : SectionResult :=
  let pts := data.section_mapping.filter (fun r => pdEq r.point sectionVal)
  if pts.isEmpty then ⟨none, 0, 0, 0, []⟩
  else
    let res :=
      pts.foldl
        (fun acc r =>
          let pointId := pyStr r.secName
          let acc1 :=
            (data.stations.filter (fun s => pyStr s.point == pointId)).foldl
              (fun a s =>
                let al := getStationAllocation data (pyStr s.sid)
                if al.status == AllocStatus.active then
                  (a.1 + al.allocation, a.2.1, a.2.2 ++ ["Station " ++ pyStr s.sid])
                else a)
              acc
          (data.loads.filter (fun l => pyStr l.point == pointId)).foldl
            (fun a l =>
              let al := getLoadAllocation data (pyStr l.lid)
              if al.status == AllocStatus.active then
                (a.1, a.2.1 + al.allocation, a.2.2 ++ ["Load " ++ pyStr l.lid])
              else a)
            acc1)
        ((0 : ℚ), (0 : ℚ), ([] : List String))
    ⟨some sectionVal, res.1, res.2.1, res.1 - res.2.1, res.2.2⟩

/-- The `summary` dictionary of `run_full_simulation`
(src/allocation_engine.py, lines 178-185). -/
structure SummaryData where
  totalActivePoints : ℕ
  totalActiveGeneration : ℚ
  totalActiveLoad : ℚ
  overallBalance : ℚ
  activePoints : List String
deriving DecidableEq, Repr

/-- The full result dictionary of `run_full_simulation`
(src/allocation_engine.py, lines 178-190). -/
structure SimResults where
  summary : SummaryData
  stations : List AllocRecord
  loads : List AllocRecord
  sections : List SectionResult
  optionalRulesApplied : Bool
deriving Repr

/-- `sum(r['allocation'] for r in rs if r['status'] == 'active')`
(src/allocation_engine.py, lines 174-175). -/
def sumAllocActive (rs : List AllocRecord) : ℚ :=
  ((rs.filter (fun r => r.status == AllocStatus.active)).map (fun r => r.allocation)).sum

/-- Pandas `Series.unique`: first occurrence of each distinct cell, in
order. -/
def firstUniq (l : List Cell) : List Cell :=
  l.foldl (fun acc c => if c ∈ acc then acc else acc ++ [c]) []

/-- Embeds `AllocationEngine.run_full_simulation`
(src/allocation_engine.py, lines 145-193): per-row station and load
allocation records, per-section results over distinct non-missing 点位
values of the section mapping, and the global summary whose totals sum the
active records' allocations and whose balance is their difference. -/
def runFullSimulation (data : EngineData) : SimResults :=
  let activePts := (data.point_status.filter (fun kv => kv.2 == 1)).map (fun kv => kv.1)
  let stationResults := data.stations.map (fun s => getStationAllocation data (pyStr s.sid))
  let loadResults := data.loads.map (fun l => getLoadAllocation data (pyStr l.lid))
  let sectionResults :=
    ((firstUniq (data.section_mapping.map (fun r => r.point))).filter
        (fun c => c != Cell.blank)).map
      (fun c => calcSectionAllocation data c)
  let gen := sumAllocActive stationResults
  let ld := sumAllocActive loadResults
  ⟨⟨activePts.length, gen, ld, gen - ld, activePts⟩,
    stationResults, loadResults, sectionResults,
    decide (0 < data.optional_rules.length)⟩

/-- Round to the nearest integer, ties to even — Python's rounding for
`format(x, '.2f')`, modelled on the exact rational value. -/
def roundHalfEven (x : ℚ) : ℤ :=
  let f := Rat.floor x
  let d := x - (f : ℚ)
  if d < 1 / 2 then f else if 1 / 2 < d then f + 1 else if f % 2 = 0 then f else f + 1

/-- Python `f"{x:.2f}"` on the exact rational value. -/
def fmt2 (q : ℚ) : String :=
  let n := roundHalfEven (q * 100)
  let m := n.natAbs
  (if n < 0 then "-" else "") ++ Nat.repr (m / 100) ++ "." ++
    (if m % 100 < 10 then "0" else "") ++ Nat.repr (m % 100)

/-- One detail line of the active-station preview
(src/allocation_engine.py, line 224). -/
def stationLine (r : AllocRecord) : String :=
  "  - " ++ (match r.entityName with | some c => pyStr c | none => "Unknown") ++
    ": " ++ fmt2 r.allocation ++ " MW (点位: " ++
    (match r.pointId with | some p => p | none => "N/A") ++ ")\n"

/-- The report text built by `get_summary_report` when results exist
(src/allocation_engine.py, lines 200-238). -/
def summaryReportBody (rulesCount : ℕ) (res : SimResults) : String :=
  let s := res.summary
  let activeStations := res.stations.filter (fun r => r.status == AllocStatus.active)
  let inactiveStations := res.stations.filter (fun r => r.status == AllocStatus.inactive)
  let activeLoads := res.loads.filter (fun r => r.status == AllocStatus.active)
  let inactiveLoads := res.loads.filter (fun r => r.status == AllocStatus.inactive)
  "\n电力分配仿真结果报告\n=====================\n\n总体概况:\n" ++
    "- 激活点位数量: " ++ Nat.repr s.totalActivePoints ++ "\n" ++
    "- 总发电量: " ++ fmt2 s.totalActiveGeneration ++ " MW\n" ++
    "- 总负荷量: " ++ fmt2 s.totalActiveLoad ++ " MW\n" ++
    "- 电力平衡: " ++ fmt2 s.overallBalance ++ " MW\n\n电站状态:\n" ++
    "- 运行中电站: " ++ Nat.repr activeStations.length ++ "个\n" ++
    "- 停运电站: " ++ Nat.repr inactiveStations.length ++ "个\n\n" ++
    (if !activeStations.isEmpty then
      "运行中电站详情:\n" ++ String.join ((activeStations.take 10).map stationLine) ++
        (if 10 < activeStations.length then
          "  ... 还有 " ++ Nat.repr (activeStations.length - 10) ++ " 个电站\n"
        else "")
    else "") ++
    "\n负荷状态:\n" ++
    "- 活动负荷: " ++ Nat.repr activeLoads.length ++ "个\n" ++
    "- 非活动负荷: " ++ Nat.repr inactiveLoads.length ++ "个\n" ++
    (if res.optionalRulesApplied then
      "\n已加载可选规则文件: " ++ Nat.repr rulesCount ++ "个\n"
    else "")

/-- Embeds `AllocationEngine.get_summary_report`
(src/allocation_engine.py, lines 195-238).  `self.results` starts as the
empty dict and is only ever replaced by the (always truthy) result dict of
`run_full_simulation`, so it is modelled by an `Option`: `none` is the
empty-results state. -/
def getSummaryReport (data : EngineData) (results : Option SimResults) : String :=
  match results with
  | none => "No simulation results available. Run simulation first."
  | some res => summaryReportBody data.optional_rules.length res

/-! ### Auxiliary notions used only in statements and witnesses -/

/-- Whether `needle` occurs at the start of `hay`. -/
def leadsWith : List Char → List Char → Bool
  | [], _ => true
  | _ :: _, [] => false
  | a :: as, b :: bs => a == b && leadsWith as bs

/-- Whether `needle` occurs contiguously anywhere in `hay`. -/
def hasSeq (needle : List Char) : List Char → Bool
  | [] => leadsWith needle []
  | h :: t => leadsWith needle (h :: t) || hasSeq needle t

/-- Substring test: does `hay` contain `needle`? -/
def strContains (needle hay : String) : Bool := hasSeq needle.data hay.data

/-- A canonical field resolves against the available columns: either it is
present directly, or (when the file has a column mapping) some mapped source
column for it is present.  This is the specification-side reading of
`DataLoader.validate_columns`. -/
def ResolvableCol (req : String) (mapping : Option (List (String × String)))
    (cols : List String) : Prop :=
  match mapping with
  | some m => req ∈ cols ∨ ∃ am ∈ m, am.2 = req ∧ am.1 ∈ cols
  | none => req ∈ cols

/-- Scenario data: one station on active point `"1"` with output `50`, one
load on inactive point `"2"` with demand `30`. -/
def exScenarioData : EngineData :=
  ⟨[⟨Cell.num 1, Cell.str "S1", Cell.str "X"⟩],
   [⟨Cell.str "1", Cell.str "电站A", Cell.num 50, Cell.str "1"⟩],
   [⟨Cell.str "1", Cell.str "用户A", Cell.num 30, Cell.str "2"⟩],
   [("1", 1), ("2", 0)], []⟩

/-- Scenario data: the single station and load reference point `"9"`, which
is absent from the point-status map. -/
def exAbsentPointData : EngineData :=
  ⟨[],
   [⟨Cell.str "1", Cell.str "电站A", Cell.num 50, Cell.str "9"⟩],
   [⟨Cell.str "1", Cell.str "用户A", Cell.num 30, Cell.str "9"⟩],
   [("1", 1)], []⟩

/-- An engine whose data is empty. -/
def exEmptyData : EngineData := ⟨[], [], [], [], []⟩

/-! ### Helper lemmas -/

theorem listLeB_refl (l : List Char) : listLeB l l = true := by
  induction l with
  | nil => rfl
  | cons a as ih => simp [listLeB, lt_irrefl, ih]

theorem listLeB_total : ∀ as bs : List Char, listLeB as bs = true ∨ listLeB bs as = true := by
  intro as
  induction as with
  | nil => intro bs; exact Or.inl rfl
  | cons a as ih =>
    intro bs
    cases bs with
    | nil => exact Or.inr rfl
    | cons b bs =>
      rcases lt_trichotomy a b with h | h | h
      · exact Or.inl (by simp [listLeB, h])
      · subst h
        rcases ih bs with h2 | h2
        · exact Or.inl (by simp [listLeB, lt_irrefl, h2])
        · exact Or.inr (by simp [listLeB, lt_irrefl, h2])
      · exact Or.inr (by simp [listLeB, h])

theorem listLeB_trans : ∀ as bs cs : List Char,
    listLeB as bs = true → listLeB bs cs = true → listLeB as cs = true := by
  intro as
  induction as with
  | nil => intro bs cs _ _; rfl
  | cons a as ih =>
    intro bs cs h1 h2
    cases bs with
    | nil => simp [listLeB] at h1
    | cons b bs =>
      cases cs with
      | nil => simp [listLeB] at h2
      | cons c cs =>
        rcases lt_trichotomy a b with hab | hab | hab
        · rcases lt_trichotomy b c with hbc | hbc | hbc
          · simp [listLeB, lt_trans hab hbc]
          · subst hbc; simp [listLeB, hab]
          · simp [listLeB, lt_asymm hbc, hbc] at h2
        · subst hab
          rcases lt_trichotomy a c with hac | hac | hac
          · simp [listLeB, hac]
          · subst hac
            simp [listLeB, lt_irrefl] at h1 h2 ⊢
            exact ih bs cs h1 h2
          · simp [listLeB, lt_asymm hac, hac] at h2
        · simp [listLeB, lt_asymm hab, hab] at h1

theorem sortedHeadMin (l : List String) (s : String)
    (h : (List.insertionSort strLeProp l).head? = some s) :
    s ∈ l ∧ ∀ t ∈ l, strLeB s t = true := by
  have hsorted : List.Sorted strLeProp (List.insertionSort strLeProp l) :=
    @List.sorted_insertionSort String strLeProp strLePropDecidable
      ⟨fun a b => listLeB_total a.data b.data⟩
      ⟨fun a b c => listLeB_trans a.data b.data c.data⟩ l
  have hperm : (List.insertionSort strLeProp l).Perm l := List.perm_insertionSort strLeProp l
  cases hsl : List.insertionSort strLeProp l with
  | nil => rw [hsl] at h; exact absurd h (by simp)
  | cons x xs =>
    rw [hsl] at h hsorted hperm
    have hx : x = s := by simpa using h
    subst hx
    constructor
    · exact hperm.subset (List.mem_cons_self x xs)
    · intro t ht
      have ht2 : t ∈ x :: xs := hperm.symm.subset ht
      rcases List.mem_cons.mp ht2 with h3 | h3
      · subst h3; exact listLeB_refl t.data
      · exact List.rel_of_sorted_cons hsorted t h3

theorem hyphen_mem_intChars {z : ℤ} (h : z < 0) : '-' ∈ intChars z := by
  simp [intChars, if_pos h]

theorem hyphen_mem_pyStrNumL {q : ℚ} (h : q.num < 0) : '-' ∈ pyStrNumL q := by
  unfold pyStrNumL
  rcases hd : decExponent q.den with _ | k
  · exact List.mem_append.mpr (Or.inl (List.mem_append.mpr (Or.inl (hyphen_mem_intChars h))))
  · cases k with
    | zero => exact List.mem_append.mpr (Or.inl (hyphen_mem_intChars h))
    | succ k2 =>
        rw [if_pos h]
        exact List.mem_append.mpr (Or.inl (List.mem_append.mpr (Or.inl
          (List.mem_append.mpr (Or.inl (List.mem_singleton.mpr rfl))))))

theorem pyIsdigit_eq_false_of_mem {t : String} {c : Char} (hm : c ∈ t.data)
    (hc : c.isDigit = false) : pyIsdigit t = false := by
  unfold pyIsdigit
  cases hall : t.data.all Char.isDigit with
  | true => exact absurd (List.all_eq_true.mp hall c hm) (by simp [hc])
  | false => simp

theorem mem_missingOf (req : String) (required : List String)
    (mapping : Option (List (String × String))) (cols : List String) :
    req ∈ missingOf required mapping cols ↔
      req ∈ required ∧ ¬ ResolvableCol req mapping cols := by
  cases mapping with
  | none => simp [missingOf, ResolvableCol, List.mem_filter]
  | some m =>
      simp [missingOf, ResolvableCol, List.mem_filter, List.any_eq_true]

theorem missingOf_eq_nil_iff (required : List String)
    (mapping : Option (List (String × String))) (cols : List String) :
    missingOf required mapping cols = [] ↔
      ∀ req ∈ required, ResolvableCol req mapping cols := by
  constructor
  · intro h req hreq
    by_contra hnr
    have hin := (mem_missingOf req required mapping cols).mpr ⟨hreq, hnr⟩
    rw [h] at hin
    exact absurd hin (List.not_mem_nil req)
  · intro hall
    rcases hm : missingOf required mapping cols with _ | ⟨a, t⟩
    · rfl
    · have ha : a ∈ missingOf required mapping cols := by
        rw [hm]; exact List.mem_cons_self a t
      rcases (mem_missingOf a required mapping cols).mp ha with ⟨ha1, ha2⟩
      exact absurd (hall a ha1) ha2

theorem dictUpdate_key_mem {m : List (String × ℤ)} {k : String} {v : ℤ}
    {kv : String × ℤ} (h : kv ∈ dictUpdate m k v) : kv.1 = k ∨ kv ∈ m := by
  unfold dictUpdate at h
  by_cases hc : m.any (fun kv => kv.1 == k)
  · rw [if_pos hc] at h
    rcases List.mem_map.mp h with ⟨kv0, hkv0, heq⟩
    by_cases h0 : kv0.1 == k
    · rw [if_pos h0] at heq; subst heq; exact Or.inl rfl
    · rw [if_neg h0] at heq; subst heq; exact Or.inr hkv0
  · rw [if_neg hc] at h
    rcases List.mem_append.mp h with h1 | h1
    · exact Or.inr h1
    · rcases List.mem_singleton.mp h1 with rfl; exact Or.inl rfl

theorem wideGoDigits : ∀ (cols : List (Cell × Cell)) (acc m : List (String × ℤ)),
    (∀ kv ∈ acc, pyIsdigit kv.1 = true) →
    loadPointStatusWideGo cols acc = Except.ok m →
    ∀ kv ∈ m, pyIsdigit kv.1 = true := by
  intro cols
  induction cols with
  | nil =>
      intro acc m hacc h kv hm
      have : acc = m := by simpa [loadPointStatusWideGo] using h
      exact hacc kv (this ▸ hm)
  | cons hv rest ih =>
      intro acc m hacc h kv hm
      by_cases hd : pyIsdigit (pyStr hv.1)
      · by_cases hb : hv.2 != Cell.blank
        · rcases hi : pyIntOfCell hv.2 with _ | n
          · simp [loadPointStatusWideGo, hd, hb, hi] at h
          · rw [loadPointStatusWideGo, if_pos hd, if_pos hb, hi] at h
            refine ih _ m ?_ h kv hm
            intro kv2 hkv2
            rcases dictUpdate_key_mem hkv2 with h2 | h2
            · rw [h2]; exact hd
            · exact hacc kv2 h2
        · rw [loadPointStatusWideGo, if_pos hd, if_neg hb] at h
          exact ih _ m hacc h kv hm
      · rw [loadPointStatusWideGo, if_neg hd] at h
        exact ih _ m hacc h kv hm

/-! ### Claim theorems -/

/-- C1 (counterexample): the claim fails on `DataLoader.load_point_status`
(src/data_loader.py): there the status value `"在线"` — an active token of
the claim — never marks a point active.  In the wide layout it raises (the
whole table load errors out), and in the long layout the row is skipped, so
the point ends up absent, hence inactive; yet `_is_active` confirms `"在线"`
is an active token. -/
theorem activeTokenRaisesOrSkips :
    loadPointStatusWideTable [(Cell.str "12", Cell.str "在线")] = Except.error () ∧
    loadPointStatusLongTable [(Cell.str "7", Cell.str "在线")] = [] ∧
    isActiveCell (Cell.str "在线") = true :=
  ⟨rfl, rfl, by decide⟩

/-- C1 (amended): in `_is_active` (src/data/data_loader.py) activation
normalization is total and never raises: a value is active iff it is a
numeric value whose `int()` truncation is `1`, or a string whose stripped
form is (case-sensitively) one of `"1"`, `"在线"`, `"正常"`, `"ON"`, `"on"`,
`"true"`, `"True"`, `"是"`, `"Y"`; everything else (blank included) is
inactive.  In `DataLoader.load_point_status` (src/data_loader.py), by
contrast, statuses are coerced with `int()`: a long-form row whose status
does not coerce is skipped (the point stays absent, hence inactive). -/
theorem isActiveNormalization :
    (∀ c : Cell, isActiveCell c = true ↔
      (∃ q, c = Cell.num q ∧ pyTrunc q = 1) ∨
      (∃ s, c = Cell.str s ∧
        (pyStrip s = "1" ∨ pyStrip s = "在线" ∨ pyStrip s = "正常" ∨ pyStrip s = "ON" ∨
         pyStrip s = "on" ∨ pyStrip s = "true" ∨ pyStrip s = "True" ∨ pyStrip s = "是" ∨
         pyStrip s = "Y"))) ∧
    (∀ pid st : Cell, pyIntOfCell st = none → loadPointStatusLongRow pid st = none) := by
  constructor
  · intro c
    cases c with
    | blank => simp [isActiveCell]
    | num q => simp [isActiveCell]
    | str s => simp [isActiveCell, activeStateStrings]
  · intro pid st h
    unfold loadPointStatusLongRow
    by_cases hb : pid == Cell.blank || st == Cell.blank
    · rw [if_pos hb]
    · rw [if_neg hb, h]
      cases normalizePointId pid <;> rfl

/-- C1 (witness): the amended theorem applied at the stripped token
`" ON "` and at a long-form row whose status is the non-coercible `"在线"`. -/
theorem isActiveNormalizationWitness :
    isActiveCell (Cell.str " ON ") = true ∧
    loadPointStatusLongRow (Cell.str "7") (Cell.str "在线") = none :=
  ⟨(isActiveNormalization.1 (Cell.str " ON ")).mpr
      (Or.inr ⟨" ON ", rfl, by decide⟩),
    isActiveNormalization.2 (Cell.str "7") (Cell.str "在线") rfl⟩

/-- C2: for every engine data set, the overall balance reported by
`run_full_simulation` equals exactly the sum of the allocations of the
station records with active status minus the sum of the allocations of the
load records with active status, and the two reported totals are exactly
those sums. -/
theorem overallBalanceExact (data : EngineData) :
    (runFullSimulation data).summary.totalActiveGeneration =
      sumAllocActive (runFullSimulation data).stations ∧
    (runFullSimulation data).summary.totalActiveLoad =
      sumAllocActive (runFullSimulation data).loads ∧
    (runFullSimulation data).summary.overallBalance =
      sumAllocActive (runFullSimulation data).stations -
        sumAllocActive (runFullSimulation data).loads :=
  ⟨rfl, rfl, rfl⟩

/-- C3 (counterexample): the claim fails on the engine parse
(src/allocation_engine.py, lines 42-45): the numeric cell `-5` is coerced to
`0.0` rather than kept as `-5`, because `str(-5.0).replace('.','')` holds a
minus sign and fails `isdigit()`. -/
theorem negativeOutputCoerced :
    engineParseNum (Cell.num (-5)) = 0 ∧ engineParseNum (Cell.num (-5)) ≠ -5 := by
  constructor
  · rfl
  · show (0 : ℚ) ≠ -5
    decide

/-- C3 (amended): numeric parsing is total and never errors, with
unparsable or missing cells resolving to `0.0`; `load_data`
(src/data/data_loader.py) keeps every numeric value — negatives included —
as-is, while the per-entity parse of `AllocationEngine`
(src/allocation_engine.py) accepts a value only when its string form with
dots removed is all digits, so numeric values below zero also resolve to
`0.0` there. -/
theorem numericParseDefaults :
    (∀ q : ℚ, loaderParseNum (Cell.num q) = q) ∧
    loaderParseNum Cell.blank = 0 ∧
    (∀ s, pyFloatOfString s = none → loaderParseNum (Cell.str s) = 0) ∧
    engineParseNum Cell.blank = 0 ∧
    (∀ q : ℚ, q < 0 → engineParseNum (Cell.num q) = 0) ∧
    (∀ s, pyIsdigit (removeDots s) = false → engineParseNum (Cell.str s) = 0) := by
  refine ⟨fun q => rfl, rfl, ?_, rfl, ?_, ?_⟩
  · intro s h
    simp [loaderParseNum, h]
  · intro q hq
    have hnum : q.num < 0 :=
      lt_of_not_ge fun hge => (not_le.mpr hq) (Rat.num_nonneg.mp hge)
    have hdig : pyIsdigit (removeDots (pyStrNum q)) = false := by
      have hm : '-' ∈ (removeDots (pyStrNum q)).data :=
        List.mem_filter.mpr ⟨hyphen_mem_pyStrNumL hnum, by decide⟩
      exact pyIsdigit_eq_false_of_mem hm (by decide)
    simp [engineParseNum, hdig]
  · intro s h
    simp [engineParseNum, h]

/-- C3 (witness): the amended theorem applied at the negative numeric cell
`-7`, the unparsable string cell `"abc"`, and the non-digit string cell
`"x2"`. -/
theorem numericParseDefaultsWitness :
    loaderParseNum (Cell.num (-7)) = -7 ∧
    loaderParseNum (Cell.str "abc") = 0 ∧
    engineParseNum (Cell.num (-7)) = 0 ∧
    engineParseNum (Cell.str "x2") = 0 :=
  ⟨numericParseDefaults.1 (-7),
    numericParseDefaults.2.2.1 "abc" rfl,
    numericParseDefaults.2.2.2.2.1 (-7) (by decide),
    numericParseDefaults.2.2.2.2.2 "x2" (by decide)⟩

/-- C6 (counterexample): the claim fails on `_split_points`
(src/data/data_loader.py, lines 25-30): the string point id `"7.0"` is NOT
normalized to `"7"` there — only numeric cells are passed through
`str(int(val))` — so `"7.0"` and the numeric cell `7` resolve to different
point ids. -/
theorem splitPointsNotNormalizing :
    splitPoints (Cell.str "7.0") = ["7.0"] ∧
    splitPoints (Cell.num 7) = ["7"] ∧
    ("7.0" : String) ≠ "7" := by
  refine ⟨by decide, by decide, by decide⟩

/-- C6 (amended): in the long form of `DataLoader.load_point_status`
(src/data_loader.py, lines 240-246) the point ids `"7"`, `"7.0"` and the
numeric cell `7` all normalize to the canonical `"7"`; in `_split_points`
(src/data/data_loader.py) only numeric cells are normalized — the numeric
cell `7` becomes `"7"`, agreeing with the string `"7"`, while the string
`"7.0"` is kept verbatim and names a different point. -/
theorem pointIdNormalization :
    normalizePointId (Cell.str "7") = some "7" ∧
    normalizePointId (Cell.str "7.0") = some "7" ∧
    normalizePointId (Cell.num 7) = some "7" ∧
    splitPoints (Cell.str "7") = ["7"] ∧
    splitPoints (Cell.num 7) = ["7"] ∧
    splitPoints (Cell.str "7.0") = ["7.0"] := by
  refine ⟨by decide, by decide, by decide, by decide, by decide, by decide⟩

/-- C10: whenever the stored results are empty, `get_summary_report`
returns exactly the fixed message and does not raise. -/
theorem emptyResultsReport (data : EngineData) (results : Option SimResults)
    (h : results = none) :
    getSummaryReport data results =
      "No simulation results available. Run simulation first." := by
  subst h; rfl

/-- C10 (witness): the theorem applied to an engine with empty data and
empty results. -/
theorem emptyResultsReportWitness :
    getSummaryReport exEmptyData none =
      "No simulation results available. Run simulation first." :=
  emptyResultsReport exEmptyData none rfl

/-- C4: a registered station or load whose point id is absent from the
point-status map gets an inactive record with allocation `0` — never
not-found and never an error — while the not-found status characterizes
exactly the ids matching no registry row. -/
theorem missingPointIsInactive (data : EngineData) (sid lid : String) :
    ((getStationAllocation data sid).status = AllocStatus.notFound ↔
      stationMatches data sid = []) ∧
    (∀ row, (stationMatches data sid).head? = some row →
      lookupPS data.point_status (pyStr row.point) = none →
      (getStationAllocation data sid).status = AllocStatus.inactive ∧
      (getStationAllocation data sid).allocation = 0) ∧
    ((getLoadAllocation data lid).status = AllocStatus.notFound ↔
      loadMatches data lid = []) ∧
    (∀ row, (loadMatches data lid).head? = some row →
      lookupPS data.point_status (pyStr row.point) = none →
      (getLoadAllocation data lid).status = AllocStatus.inactive ∧
      (getLoadAllocation data lid).allocation = 0) := by
  refine ⟨?_, ?_, ?_, ?_⟩
  · cases h : stationMatches data sid with
    | nil => simp [getStationAllocation, h]
    | cons r t =>
        by_cases hc : (lookupPS data.point_status (pyStr r.point)).getD 0 == 1
        · simp [getStationAllocation, h, hc]
        · simp [getStationAllocation, h, hc]
  · intro row hrow hlook
    rcases hh : stationMatches data sid with _ | ⟨r, t⟩
    · rw [hh] at hrow; exact absurd hrow (by simp)
    · rw [hh] at hrow
      have hr : r = row := by simpa using hrow
      subst hr
      simp [getStationAllocation, hh, hlook]
  · cases h : loadMatches data lid with
    | nil => simp [getLoadAllocation, h]
    | cons r t =>
        by_cases hc : (lookupPS data.point_status (pyStr r.point)).getD 0 == 1
        · simp [getLoadAllocation, h, hc]
        · simp [getLoadAllocation, h, hc]
  · intro row hrow hlook
    rcases hh : loadMatches data lid with _ | ⟨r, t⟩
    · rw [hh] at hrow; exact absurd hrow (by simp)
    · rw [hh] at hrow
      have hr : r = row := by simpa using hrow
      subst hr
      simp [getLoadAllocation, hh, hlook]

/-- C4 (witness): the theorem applied to a station and a load that both
reference point `"9"`, absent from the point-status map. -/
theorem missingPointIsInactiveWitness :
    ((getStationAllocation exAbsentPointData "1").status = AllocStatus.inactive ∧
      (getStationAllocation exAbsentPointData "1").allocation = 0) ∧
    ((getLoadAllocation exAbsentPointData "1").status = AllocStatus.inactive ∧
      (getLoadAllocation exAbsentPointData "1").allocation = 0) :=
  ⟨(missingPointIsInactive exAbsentPointData "1" "1").2.1
      ⟨Cell.str "1", Cell.str "电站A", Cell.num 50, Cell.str "9"⟩ rfl rfl,
    (missingPointIsInactive exAbsentPointData "1" "1").2.2.2
      ⟨Cell.str "1", Cell.str "用户A", Cell.num 30, Cell.str "9"⟩ rfl rfl⟩

/-- C5: for every station and load allocation record, inactive status
implies allocation `0`, and active status implies the allocation equals the
output (resp. demand) of the first matching registry row exactly as parsed
from the source table. -/
theorem allocationMatchesStatus (data : EngineData) :
    (∀ sid, (getStationAllocation data sid).status = AllocStatus.inactive →
      (getStationAllocation data sid).allocation = 0) ∧
    (∀ sid row, (stationMatches data sid).head? = some row →
      (getStationAllocation data sid).status = AllocStatus.active →
      (getStationAllocation data sid).allocation = engineParseNum row.output) ∧
    (∀ lid, (getLoadAllocation data lid).status = AllocStatus.inactive →
      (getLoadAllocation data lid).allocation = 0) ∧
    (∀ lid row, (loadMatches data lid).head? = some row →
      (getLoadAllocation data lid).status = AllocStatus.active →
      (getLoadAllocation data lid).allocation = engineParseNum row.demand) := by
  refine ⟨?_, ?_, ?_, ?_⟩
  · intro sid h
    rcases hh : stationMatches data sid with _ | ⟨r, t⟩
    · simp [getStationAllocation, hh] at h
    · by_cases hc : (lookupPS data.point_status (pyStr r.point)).getD 0 == 1
      · simp [getStationAllocation, hh, hc] at h
      · simp [getStationAllocation, hh, hc]
  · intro sid row hrow hact
    rcases hh : stationMatches data sid with _ | ⟨r, t⟩
    · rw [hh] at hrow; exact absurd hrow (by simp)
    · rw [hh] at hrow
      have hr : r = row := by simpa using hrow
      subst hr
      by_cases hc : (lookupPS data.point_status (pyStr r.point)).getD 0 == 1
      · simp [getStationAllocation, hh, hc]
      · simp [getStationAllocation, hh, hc] at hact
  · intro lid h
    rcases hh : loadMatches data lid with _ | ⟨r, t⟩
    · simp [getLoadAllocation, hh] at h
    · by_cases hc : (lookupPS data.point_status (pyStr r.point)).getD 0 == 1
      · simp [getLoadAllocation, hh, hc] at h
      · simp [getLoadAllocation, hh, hc]
  · intro lid row hrow hact
    rcases hh : loadMatches data lid with _ | ⟨r, t⟩
    · rw [hh] at hrow; exact absurd hrow (by simp)
    · rw [hh] at hrow
      have hr : r = row := by simpa using hrow
      subst hr
      by_cases hc : (lookupPS data.point_status (pyStr r.point)).getD 0 == 1
      · simp [getLoadAllocation, hh, hc]
      · simp [getLoadAllocation, hh, hc] at hact

/-- C5 (witness): the theorem applied to an active station with output `50`
and an inactive load. -/
theorem allocationMatchesStatusWitness :
    (getStationAllocation exScenarioData "1").allocation =
      engineParseNum (Cell.num 50) ∧
    (getLoadAllocation exScenarioData "1").allocation = 0 :=
  ⟨(allocationMatchesStatus exScenarioData).2.1 "1"
      ⟨Cell.str "1", Cell.str "电站A", Cell.num 50, Cell.str "1"⟩ rfl rfl,
    (allocationMatchesStatus exScenarioData).2.2.1 "1" rfl⟩

/-- C7 (counterexample): the claim fails on the wide-form branch of
`load_data` (src/data/data_loader.py, lines 117-123): the non-digit column
header `"备注"` DOES contribute an entry to the point-status map there. -/
theorem wideFormKeepsAllHeaders :
    lookupC (loadDataPointStatusWide [(Cell.str "备注", Cell.num 1)]) "备注" =
      some (Cell.num 1) ∧
    pyIsdigit ("备注" : String) = false :=
  ⟨rfl, by decide⟩

/-- C7 (amended): in the wide form of `DataLoader.load_point_status`
(src/data_loader.py, lines 251-261) every key of the resulting point-status
map is an all-digit header, so non-digit headers contribute no entry; the
wide form of `load_data` (src/data/data_loader.py) instead keeps every
header. -/
theorem wideFormDigitHeaders (cols : List (Cell × Cell)) (m : List (String × ℤ))
    (h : loadPointStatusWideTable cols = Except.ok m) :
    ∀ kv ∈ m, pyIsdigit kv.1 = true :=
  wideGoDigits cols [] m (fun kv hkv => absurd hkv (List.not_mem_nil kv)) h

/-- C7 (witness): the theorem applied to a wide table with the digit header
`"12"` and the non-digit header `"备注"`; only `"12"` survives. -/
theorem wideFormDigitHeadersWitness : pyIsdigit ("12" : String) = true :=
  wideFormDigitHeaders [(Cell.str "12", Cell.num 1), (Cell.str "备注", Cell.num 1)]
    [("12", 1)] rfl ("12", 1) (List.mem_singleton.mpr rfl)

/-- C8: the derived section id of a load is the lexicographically smallest
section id among the sections reachable through the load's active points,
and is `none` exactly when that reachable set is empty. -/
theorem loadSectionAssignment (pts activePts : List String)
    (p2s : List (String × List String)) :
    (userSectionId pts activePts p2s = none ↔
      reachableSecs pts activePts p2s = []) ∧
    (∀ s, userSectionId pts activePts p2s = some s →
      s ∈ reachableSecs pts activePts p2s ∧
      ∀ t ∈ reachableSecs pts activePts p2s, strLeB s t = true) := by
  constructor
  · unfold userSectionId
    rw [List.head?_eq_none_iff]
    constructor
    · intro h0
      have hp := List.perm_insertionSort strLeProp (reachableSecs pts activePts p2s).dedup
      rw [h0] at hp
      exact (List.dedup_eq_nil _).mp hp.symm.eq_nil
    · intro h0
      rw [h0]
      rfl
  · intro s hs
    unfold userSectionId at hs
    have hmin := sortedHeadMin (reachableSecs pts activePts p2s).dedup s hs
    exact ⟨List.mem_dedup.mp hmin.1, fun t ht => hmin.2 t (List.mem_dedup.mpr ht)⟩

/-- C8 (witness): the theorem applied where points `"1"` and `"2"` are both
active and reach sections `"S2"` and `"S1"`; the chosen section is the
smaller `"S1"`, a member of the reachable set. -/
theorem loadSectionAssignmentWitness :
    "S1" ∈ reachableSecs ["1", "2"] ["1", "2"] [("1", ["S2"]), ("2", ["S1"])] :=
  ((loadSectionAssignment ["1", "2"] ["1", "2"]
      [("1", ["S2"]), ("2", ["S1"])]).2 "S1" rfl).1

/-- C9 (counterexample): the claim fails on the stations column check of
`load_data` (src/data/data_loader.py, lines 60-65): with present columns
`电站编号, 电站名称, 出力, 备注列` (点位 missing under all synonyms) the load
fails with a fixed message that does not contain the present column
`备注列`, so the error does not name the full list of columns actually
present. -/
theorem staticColumnsError :
    loadDataStationsColumns ["电站编号", "电站名称", "出力", "备注列"] =
      Except.error stationsColumnsErrorMsg ∧
    strContains "备注列" stationsColumnsErrorMsg = false ∧
    ("备注列" : String) ∈ ["电站编号", "电站名称", "出力", "备注列"] :=
  ⟨rfl, by decide, by decide⟩

/-- C9 (amended): `DataLoader.validate_columns` (src/data_loader.py)
resolves a table iff every canonical field resolves (directly or through the
file's column mapping) — partial tables are never accepted — and on failure
its validation error names exactly the still-missing canonical fields and
the full list of columns actually present; the column checks of `load_data`
(src/data/data_loader.py) also reject partial tables, but fail with a fixed
message that lists the accepted column names rather than the columns
present. -/
theorem validateColumnsComplete (fname : String) (required : List String)
    (mapping : Option (List (String × String))) (cols : List String) :
    (validateColumns fname required mapping cols = Except.ok () ↔
      ∀ req ∈ required, ResolvableCol req mapping cols) ∧
    (∀ e, validateColumns fname required mapping cols = Except.error e →
      e.filename = fname ∧ e.availableColumns = cols ∧
      ∀ req, req ∈ e.missingColumns ↔
        req ∈ required ∧ ¬ ResolvableCol req mapping cols) := by
  constructor
  · unfold validateColumns
    by_cases hc : (missingOf required mapping cols).isEmpty
    · rw [if_pos hc]
      exact iff_of_true rfl
        ((missingOf_eq_nil_iff required mapping cols).mp (List.isEmpty_iff.mp hc))
    · rw [if_neg hc]
      apply iff_of_false
      · simp
      · intro hall
        exact hc (by rw [(missingOf_eq_nil_iff required mapping cols).mpr hall]; rfl)
  · intro e he
    unfold validateColumns at he
    by_cases hc : (missingOf required mapping cols).isEmpty
    · rw [if_pos hc] at he
      exact absurd he (by simp)
    · rw [if_neg hc] at he
      have he2 : (⟨fname, missingOf required mapping cols, cols⟩ : ColumnError) = e :=
        Except.error.inj he
      subst he2
      exact ⟨rfl, rfl, fun req => mem_missingOf req required mapping cols⟩

/-- C9 (witness): the amended theorem applied where required fields are
`a, b` with no mapping and only `a` present: the error carries the present
columns and its missing set holds exactly the unresolvable `b`. -/
theorem validateColumnsCompleteWitness :
    (⟨"f.xlsx", ["b"], ["a"]⟩ : ColumnError).availableColumns = ["a"] ∧
    ("b" ∈ (⟨"f.xlsx", ["b"], ["a"]⟩ : ColumnError).missingColumns ↔
      "b" ∈ ["a", "b"] ∧ ¬ ResolvableCol "b" none ["a"]) :=
  ⟨((validateColumnsComplete "f.xlsx" ["a", "b"] none ["a"]).2
      ⟨"f.xlsx", ["b"], ["a"]⟩ rfl).2.1,
    ((validateColumnsComplete "f.xlsx" ["a", "b"] none ["a"]).2
      ⟨"f.xlsx", ["b"], ["a"]⟩ rfl).2.2 "b"⟩

end PowerAlloc
